import Mathlib

/-!
Verification development for the QBO MCP server (ba3ai/QBO-MCP-Server-V2).

This file shallowly embeds the OAuth gateway and credential-lifecycle core of
the repository: `app/oauth_verify.py`, `app/crypto.py`, `app/db.py`,
`app/service.py` and the ASGI wrapper in `main.py`.  Python strings are Lean
`String`s, timestamps are `Int` (seconds), growable collections are `List`s,
raised exceptions become `Except` errors, and network calls become explicit
oracle parameters.  Each definition is translated from the source file and
line range given in its doc comment.
-/

namespace QBO

/-! ### Python string primitives -/

/-- Characters Python's `str.strip()` / `str.split()` treat as whitespace. -/
def isPySpace (c : Char) : Bool :=
  c = ' ' || c = '\t' || c = '\n' || c = '\x0d' || c = '\x0b' || c = '\x0c'

/-- Drop from the right end of a character list every character satisfying `p`
(the semantics of Python `str.rstrip` with a one-character set). -/
def rstripChars (p : Char → Bool) (cs : List Char) : List Char :=
  (cs.reverse.dropWhile p).reverse

/-- Python `s.rstrip("/")`: remove every trailing `'/'`. -/
def py_rstrip_slash (s : String) : String :=
  ⟨rstripChars (fun c => c = '/') s.data⟩

/-- Python `s.strip()`: remove leading and trailing whitespace. -/
def py_strip (s : String) : String :=
  ⟨rstripChars isPySpace (s.data.dropWhile isPySpace)⟩

/-- Python `s.startswith(pre)`. -/
def py_startswith (s pre : String) : Bool :=
  pre.data.isPrefixOf s.data

/-- Python `s.lower()` (ASCII, which is all the callers compare against). -/
def py_lower (s : String) : String :=
  ⟨s.data.map Char.toLower⟩

/-- Python `a or b` on two optional strings: the left value when it is a
non-empty string, otherwise the right value. -/
def py_or_opt (a b : Option String) : Option String :=
  match a with
  | some s => if s = "" then b else some s
  | none => b

/-- Python truthiness of an `Optional[str]`: `None` and `""` are falsy. -/
def opt_str_truthy : Option String → Bool
  | none => false
  | some s => decide (s ≠ "")

/-- Python `s.count(c)` for a single-character needle. -/
def count_char (s : String) (c : Char) : Nat :=
  s.data.count c

/-- Python `s.split(" ", 1)[1]`: everything after the first space (empty when
there is no space; the callers below only reach this when a space exists). -/
def py_split_space_1_tail (s : String) : String :=
  ⟨(s.data.dropWhile (fun c => !(c = ' '))).drop 1⟩

/-- Python `sep.split` semantics of `s.split(".")`, used to state claims about
dot-separated token segments: splitting a character list at every `'.'`,
keeping empty segments. -/
def split_dots : List Char → List (List Char)
  | [] => [[]]
  | c :: cs =>
    let rest := split_dots cs
    if c = '.' then [] :: rest
    else (c :: rest.headD []) :: rest.tail

/-- Python `str.split()` with no separator: split on whitespace runs, never
producing empty segments.  `acc` holds the current word reversed. -/
def split_ws_aux : List Char → List Char → List String
  | [], acc => if acc.isEmpty then [] else [⟨acc.reverse⟩]
  | c :: cs, acc =>
    if isPySpace c then
      if acc.isEmpty then split_ws_aux cs []
      else ⟨acc.reverse⟩ :: split_ws_aux cs []
    else split_ws_aux cs (c :: acc)

def split_ws (s : String) : List String :=
  split_ws_aux s.data []

/-- Python `" ".join(xs)`. -/
def py_join_space : List String → String
  | [] => ""
  | [s] => s
  | s :: rest => s ++ " " ++ py_join_space rest

/-- Stated from the spec's words for comparison with the code's
normalization: strip at most ONE trailing path separator `'/'`. -/
def stripOneTrailingSlash (u : String) : String :=
  match u.data.reverse with
  | '/' :: rest => ⟨rest.reverse⟩
  | _ => u

/-! ### `app/crypto.py`

Modelled from the spec: the source (`app/crypto.py` lines 6-20) delegates to
the `cryptography` library's Fernet scheme, which is outside this repository.
Per the spec (§4.3) it is "a reversible symmetric-encryption transform keyed
by a process secret"; decryption of a value that is not a well-formed
ciphertext fails (the library's `InvalidToken`).  We model ciphertexts as the
plaintext tagged with a marker character (real Fernet tokens carry a version
marker, `"gAAAAA…"`), which is reversible, never the identity, and makes
decryption failure on untagged values observable. -/

/-- `encrypt(value)` from `app/crypto.py` line 14. -/
def encrypt (value : String) : String :=
  ⟨'g' :: value.data⟩

/-- `decrypt(value)` from `app/crypto.py` line 18; `none` models the Fernet
`InvalidToken` exception. -/
def decrypt (value : String) : Option String :=
  match value.data with
  | 'g' :: rest => some ⟨rest⟩
  | _ => none

/-! ### JSON values (the shape of `json.loads` output) -/

inductive JVal where
  | null
  | bool (b : Bool)
  | num (n : Int)
  | str (s : String)
  | arr (xs : List JVal)
  | obj (fields : List (String × JVal))

/-- Python `dict.get(k)` on a parsed JSON object; `json.loads` keeps the last
occurrence of a duplicated key. -/
def dict_get (fields : List (String × JVal)) (k : String) : Option JVal :=
  (fields.reverse.find? (fun p => decide (p.1 = k))).map (·.2)

/-- Python truthiness of a parsed JSON value. -/
def jval_truthy : JVal → Bool
  | .null => false
  | .bool b => b
  | .num n => decide (n ≠ 0)
  | .str s => decide (s ≠ "")
  | .arr xs => !xs.isEmpty
  | .obj fs => !fs.isEmpty

/-- Python `str(m)` for a parsed JSON value.  Strings are returned as-is (the
only case the gateway's allow-list comparison can match); renderings of
containers are abstracted, which is sound for the claims below because no
container rendering equals an allow-listed method name or carries the
`"notifications/"` prefix. -/
def py_str_of_jval : JVal → String
  | .str s => s
  | .num n => toString n
  | .bool true => "True"
  | .bool false => "False"
  | .null => "None"
  | .arr _ => "<list>"
  | .obj _ => "<dict>"

/-! ### `app/oauth_verify.py` -/

/-- `_norm_url` from `app/oauth_verify.py` lines 41-43: `u.rstrip("/")`. -/
def _norm_url (u : String) : String :=
  py_rstrip_slash u

/-- The `aud` entries considered by `verify_bearer_token` lines 106-108: the
token's `aud` claim as a list (a non-list claim, including an absent one, is
wrapped in a singleton), then restricted to string entries. -/
def aud_strings (token_aud : Option JVal) : List String :=
  let aud_list : List (Option JVal) :=
    match token_aud with
    | some (JVal.arr xs) => xs.map some
    | v => [v]
  aud_list.filterMap (fun a =>
    match a with
    | some (JVal.str s) => some s
    | _ => none)

/-- The manual audience check of `verify_bearer_token` lines 106-113:
membership of the normalized expected audience in the set of normalized
string `aud` entries. -/
def aud_check_ok (expected_audience : String) (token_aud : Option JVal) : Bool :=
  let aud_norms := (aud_strings token_aud).map _norm_url
  decide (_norm_url expected_audience ∈ aud_norms)

/-- Outcome of the part of `verify_bearer_token` (lines 46-75) that runs
before the signing-key-set fetch.  `jwksFetch` is the single outcome that
reaches line 75 (`await _get_jwks()`), i.e. the only one performing network
work; every `err…` outcome models an exception raised before it. -/
inductive VerifyPre where
  | errNoAudience
  | errMissingBearer
  | errNotSignedJwt
  | jwksFetch (token : String)
deriving DecidableEq

/-- `verify_bearer_token` lines 54-75: audience-config check, bearer-header
check, token extraction, and the structural `token.count(".") != 2` check.
`errNotSignedJwt` models the `PermissionError` whose remediation text
distinguishes opaque from JWE-encrypted tokens (lines 68-73). -/
def verify_bearer_token_pre (default_audience audience auth_header : Option String) :
    VerifyPre :=
  let expected_audience := py_or_opt audience default_audience
  if !(opt_str_truthy expected_audience) then .errNoAudience
  else
    match auth_header with
    | none => .errMissingBearer
    | some hdr =>
      if !(py_startswith (py_lower hdr) "bearer ") then .errMissingBearer
      else
        let token := py_strip (py_split_space_1_tail hdr)
        if count_char token '.' ≠ 2 then .errNotSignedJwt
        else .jwksFetch token

/-! ### Error taxonomy (spec §7)

The source raises Python exceptions; the spec groups them into a taxonomy.
Constructor arguments carry the source's message strings:
`notConnected` models `ValueError("Not connected")` (`app/db.py` line 79) and
the resolver's guidance message (`app/service.py` lines 30-33);
`configurationMissing` models the Fernet `InvalidToken` raised on decryption
failure; `upstreamExchangeFailed` models `raise_for_status` on the token
endpoint; `externalApiError` models accounting-API failures. -/

inductive AppError where
  | notConnected (msg : String)
  | configurationMissing (msg : String)
  | upstreamExchangeFailed (msg : String)
  | externalApiError (msg : String)
deriving DecidableEq

instance {ε α : Type} [DecidableEq ε] [DecidableEq α] : DecidableEq (Except ε α) := fun a b =>
  match a, b with
  | .error e, .error e' =>
    if h : e = e' then .isTrue (by rw [h]) else .isFalse (by simp [h])
  | .ok v, .ok v' =>
    if h : v = v' then .isTrue (by rw [h]) else .isFalse (by simp [h])
  | .error _, .ok _ => .isFalse (by simp)
  | .ok _, .error _ => .isFalse (by simp)

/-! ### `app/db.py` -/

/-- Primary key of `QBOConnection` (`app/db.py` lines 20-21). -/
structure ConnKey where
  user_id : String
  realm_id : String
deriving DecidableEq

/-- Non-key columns of `QBOConnection` (`app/db.py` lines 22-26). -/
structure ConnRow where
  company_name : Option String
  access_token_enc : Option String
  refresh_token_enc : String
  access_token_expires_at : Option Int
  updated_at : Int
deriving DecidableEq

/-- The `qbo_connections` table, one entry per primary key. -/
abbrev Store := List (ConnKey × ConnRow)

/-- The primary-key test for a `(user, tenant)` pair. -/
def connKeyPred (user_id realm_id : String) (kr : ConnKey × ConnRow) : Bool :=
  decide (kr.1 = ⟨user_id, realm_id⟩)

/-- Primary-key lookup (`session.get(QBOConnection, …)`). -/
def findConn (st : Store) (user_id realm_id : String) : Option ConnRow :=
  (st.find? (connKeyPred user_id realm_id)).map (·.2)

/-- `get_connection` from `app/db.py` lines 75-88: raises
`ValueError("Not connected")` when the row is absent, otherwise returns the
row as stored (token fields stay in their encrypted form). -/
def get_connection (st : Store) (user_id realm_id : String) :
    Except AppError ConnRow :=
  match findConn st user_id realm_id with
  | none => .error (.notConnected "Not connected")
  | some row => .ok row

/-- `delete_connection` from `app/db.py` lines 36-47: returns whether a row
existed, deleting it when it did; a no-op delete returns `false` and has no
`raise` path. -/
def delete_connection (st : Store) (user_id realm_id : String) : Bool × Store :=
  match findConn st user_id realm_id with
  | none => (false, st)
  | some _ => (true, st.filter (fun kr => !(connKeyPred user_id realm_id kr)))

/-- The in-place mutation of an existing row performed by `upsert_connection`
(`app/db.py` lines 60-65): on the matching key, keep the prior `company_name`
when the new one is falsy (`if company_name:`), overwrite both token fields
and the expiry, and bump `updated_at`. -/
def upsertRow (user_id realm_id : String) (company_name access_token_enc : Option String)
    (refresh_token_enc : String) (access_token_expires_at : Option Int) (now : Int)
    (kr : ConnKey × ConnRow) : ConnKey × ConnRow :=
  if connKeyPred user_id realm_id kr then
    (kr.1,
      ⟨if opt_str_truthy company_name then company_name else kr.2.company_name,
       access_token_enc, refresh_token_enc, access_token_expires_at, now⟩)
  else kr

/-- `upsert_connection` from `app/db.py` lines 49-66.  A fresh key inserts a
new row with the given fields; an existing key overwrites the token fields and
expiry, keeps the prior `company_name` when the new one is falsy
(`if company_name:`), and bumps `updated_at` to the current time. -/
def upsert_connection (st : Store) (user_id realm_id : String)
    (company_name access_token_enc : Option String) (refresh_token_enc : String)
    (access_token_expires_at : Option Int) (now : Int) : Store :=
  match findConn st user_id realm_id with
  | none =>
    st ++ [(⟨user_id, realm_id⟩,
      ⟨company_name, access_token_enc, refresh_token_enc, access_token_expires_at, now⟩)]
  | some _ =>
    st.map (upsertRow user_id realm_id company_name access_token_enc refresh_token_enc
      access_token_expires_at now)

/-- One element of the `list_connections` result (`app/db.py` line 73); the
source renders `updated_at` as an ISO string, which preserves the value. -/
structure ConnSummary where
  realm_id : String
  company_name : Option String
  updated_at : Int
deriving DecidableEq

/-- The `ORDER BY updated_at DESC` relation. -/
def updatedGe (a b : ConnSummary) : Prop :=
  b.updated_at ≤ a.updated_at

instance : DecidableRel updatedGe := fun _ _ => Int.decLe _ _

instance : IsTotal ConnSummary updatedGe :=
  ⟨fun a b => (Int.le_total b.updated_at a.updated_at).imp id id⟩

instance : IsTrans ConnSummary updatedGe :=
  ⟨fun _ _ _ h h' => Int.le_trans h' h⟩

/-- `list_connections` from `app/db.py` lines 68-73: the user's rows ordered
by `updated_at` descending. -/
def list_connections (st : Store) (user_id : String) : List ConnSummary :=
  List.insertionSort updatedGe
    ((st.filter (fun kr => decide (kr.1.user_id = user_id))).map
      (fun kr => ⟨kr.1.realm_id, kr.2.company_name, kr.2.updated_at⟩))

/-! ### `app/qbo.py` (refresh exchange) -/

/-- The parsed JSON body of a successful token-endpoint response, as consumed
by `_get_valid_access_token`: `token_resp["access_token"]` (required),
`token_resp.get("refresh_token", …)` and `token_resp.get("expires_in", 3600)`
(both optional).  `refresh_access_token` (`app/qbo.py` lines 58-67) is a
network call; theorems take the response as an `Except` oracle, where `error`
models `raise_for_status` on a non-success upstream reply. -/
structure TokenResp where
  access_token : String
  refresh_token : Option String
  expires_in : Option Int
deriving DecidableEq

/-! ### `app/service.py` -/

/-- Result of `_get_valid_access_token`: the returned token, the store after
the call, and how many refresh exchanges were performed against the upstream
authorization server during the call. -/
structure TokenResult where
  token : String
  store : Store
  refreshCalls : Nat
deriving DecidableEq

/-- Decryption of a required stored token; `none` from `decrypt` models the
Fernet `InvalidToken` exception escaping `_get_valid_access_token`. -/
def decrypt_or_error (enc : String) : Except AppError String :=
  match decrypt enc with
  | some s => .ok s
  | none => .error (.configurationMissing "InvalidToken")

/-- `access_token = decrypt(access_enc) if access_enc else None`
(`app/service.py` line 43). -/
def decrypt_opt_access : Option String → Except AppError (Option String)
  | none => .ok none
  | some enc =>
    match decrypt enc with
    | some s => .ok (some s)
    | none => .error (.configurationMissing "InvalidToken")

/-- The refresh trigger of `app/service.py` line 47:
`(not exp) or (exp <= now + 30)` for the expiry part. -/
def expired_or_missing (exp : Option Int) (now : Int) : Bool :=
  match exp with
  | none => true
  | some e => decide (e ≤ now + 30)

/-- `_get_valid_access_token` from `app/service.py` lines 37-61.  `now` is the
current UTC time in seconds (the source reads the clock twice a few
microseconds apart; both reads are modelled by `now`); `refresh_resp` is the
upstream token endpoint's reply, consulted only if a refresh is performed. -/
def _get_valid_access_token (st : Store) (user_id realm_id : String) (now : Int)
    (refresh_resp : Except String TokenResp) : Except AppError TokenResult :=
  match get_connection st user_id realm_id with
  | .error e => .error e
  | .ok conn =>
    match decrypt_opt_access conn.access_token_enc with
    | .error e => .error e
    | .ok access_token =>
      match decrypt_or_error conn.refresh_token_enc with
      | .error e => .error e
      | .ok refresh_token =>
        if !(opt_str_truthy access_token) ||
            expired_or_missing conn.access_token_expires_at now then
          match refresh_resp with
          | .error msg => .error (.upstreamExchangeFailed msg)
          | .ok tr =>
            let new_access := tr.access_token
            let new_refresh := tr.refresh_token.getD refresh_token
            let expires_in := tr.expires_in.getD 3600
            let expires_at := now + expires_in
            .ok ⟨new_access,
              upsert_connection st user_id realm_id conn.company_name
                (some (encrypt new_access)) (encrypt new_refresh)
                (some expires_at) now,
              1⟩
        else
          -- On this branch `access_token` is a non-empty string; the default
          -- mirrors the Python variable's static type being `Optional[str]`.
          .ok ⟨access_token.getD "", st, 0⟩

/-- The resolver's guidance message (`app/service.py` lines 30-33). -/
def noCompaniesMsg : String :=
  "No QuickBooks companies connected for this user. Run the connect tool first (qbo_connect_company) and complete the Intuit OAuth flow."

/-- `_resolve_realm_id` from `app/service.py` lines 20-34: a truthy explicit
realm id wins; otherwise the most recently updated connection's realm id;
otherwise a user-actionable `ValueError`. -/
def _resolve_realm_id (st : Store) (user_id : String) (realm_id : Option String) :
    Except AppError String :=
  if opt_str_truthy realm_id then .ok (realm_id.getD "")
  else
    match list_connections st user_id with
    | [] => .error (.notConnected noCompaniesMsg)
    | c :: _ => .ok c.realm_id

/-- The shape shared by every entity operation in `app/service.py`
(`create_entity`, `get_entity`, `update_entity`, `operate_entity`,
`send_transaction`, `get_report`, `search_entity`, lines 95-218): resolve the
realm, obtain a valid access token, then call the external accounting API.
`api` is the external-call oracle `(realm_id, access_token) ↦ JSON`. -/
def entity_operation (st : Store) (user_id : String) (realm_id : Option String)
    (now : Int) (refresh_resp : Except String TokenResp)
    (api : String → String → Except String JVal) :
    Except AppError (String × JVal) :=
  match _resolve_realm_id st user_id realm_id with
  | .error e => .error e
  | .ok rid =>
    match _get_valid_access_token st user_id rid now refresh_resp with
    | .error e => .error e
    | .ok res =>
      match api rid res.token with
      | .ok data => .ok (rid, data)
      | .error e => .error (.externalApiError e)

/-! ### `main.py`: the `MCPHttpOAuthWrapper` ASGI gateway -/

/-- The request body as seen by `_extract_jsonrpc_methods` (`main.py` lines
261-276): `isEmpty` models `not body` on the raw bytes, `parsed` the result of
`json.loads` (`none` = parse failure; an empty byte string never parses). -/
structure Body where
  isEmpty : Bool
  parsed : Option JVal

/-- `_extract_jsonrpc_methods` from `main.py` lines 261-276: each parsed
message object's truthy `method` value, stringified. -/
def _extract_jsonrpc_methods (b : Body) : List String :=
  if b.isEmpty then []
  else
    match b.parsed with
    | none => []
    | some payload =>
      let msgs := match payload with | JVal.arr xs => xs | v => [v]
      msgs.filterMap (fun msg =>
        match msg with
        | JVal.obj fields =>
          match dict_get fields "method" with
          | some m => if jval_truthy m then some (py_str_of_jval m) else none
          | none => none
        | _ => none)

/-- The `public_methods` allow-list of `main.py` line 360. -/
def public_methods : List String :=
  ["initialize", "tools/list", "resources/list", "prompts/list", "logging/setLevel", "ping"]

/-- `_is_public_method` from `main.py` lines 362-363. -/
def _is_public_method (m : String) : Bool :=
  public_methods.contains m || py_startswith m "notifications/"

/-- The gateway's per-request classification (spec §3 RequestDecision). -/
inductive Decision where
  | passthrough
  | probeResponse
  | publicForward
  | requireAuth
deriving DecidableEq

/-- `auth and auth.lower().startswith("bearer ")` on the Authorization header
(`main.py` line 348, negated there): a bearer-scheme header is present. -/
def bearer_header_present (auth : Option String) : Bool :=
  match auth with
  | none => false
  | some a => (decide (a ≠ "")) && py_startswith (py_lower a) "bearer "

/-- The protected-path test of `main.py` line 338, applied to the
already-rstripped path. -/
def mcp_or_sse_path (path : String) : Bool :=
  path = "/mcp" || py_startswith path "/mcp/" || path = "/sse" || py_startswith path "/sse/"

/-- The unary (streamable-HTTP) transport path. -/
def is_mcp_path (path : String) : Bool :=
  path = "/mcp" || py_startswith path "/mcp/"

/-- The streaming (SSE) transport path. -/
def is_sse_path (path : String) : Bool :=
  path = "/sse" || py_startswith path "/sse/"

/-- The classification performed by `MCPHttpOAuthWrapper.__call__` before any
token verification (`main.py` lines 328-369): non-MCP paths pass through; on
`/mcp` without a bearer header (and with the public-discovery toggle on), an
empty-body POST is answered as a liveness probe and a body whose extracted
methods are all allow-listed is forwarded unauthenticated; everything else
requires bearer verification. -/
def classify (allow_public_discovery : Bool) (method raw_path : String)
    (auth : Option String) (b : Body) : Decision :=
  let path := py_rstrip_slash raw_path
  if !(mcp_or_sse_path path) then .passthrough
  else if allow_public_discovery && !(bearer_header_present auth) &&
      py_startswith path "/mcp" then
    if b.isEmpty && (method = "POST") then .probeResponse
    else
      let methods := _extract_jsonrpc_methods b
      if (!methods.isEmpty) && methods.all _is_public_method then .publicForward
      else .requireAuth
  else .requireAuth

/-- Configuration read by the gateway's response construction. -/
structure Env where
  public_base_url : Option String
  base_url : Option String
  render_external_url : Option String
  oauth_scopes : Option String

/-- The request headers the gateway consults (`headers.get(…)`). -/
structure ReqHeaders where
  authorization : Option String
  host : Option String
  x_forwarded_host : Option String
  x_forwarded_proto : Option String

/-- `_supported_scopes` from `main.py` lines 177-179: the `OAUTH_SCOPES`
variable (default `"openid profile email offline_access"`), commas replaced by
spaces, split on whitespace. -/
def _supported_scopes (env : Env) : List String :=
  let raw := env.oauth_scopes.getD "openid profile email offline_access"
  split_ws ⟨raw.data.map (fun c => if c = ',' then ' ' else c)⟩

/-- The base-URL computation shared by `_challenge_headers` (`main.py` lines
308-316): first truthy of the three configured base URLs, else
`proto://host` from forwarded headers, else `""`; rstripped of `/`. -/
def gateway_base (env : Env) (h : ReqHeaders) (scheme : String) : String :=
  let proto :=
    match h.x_forwarded_proto with
    | some p => if p = "" then (if scheme = "" then "https" else scheme) else p
    | none => if scheme = "" then "https" else scheme
  let host := py_or_opt h.x_forwarded_host h.host
  match py_or_opt env.public_base_url (py_or_opt env.base_url env.render_external_url) with
  | some b =>
    if b = "" then
      match host with
      | some hs => if hs = "" then "" else py_rstrip_slash (proto ++ "://" ++ hs)
      | none => ""
    else py_rstrip_slash b
  | none =>
    match host with
    | some hs => if hs = "" then "" else py_rstrip_slash (proto ++ "://" ++ hs)
    | none => ""

/-- The protected-resource metadata URL named by the challenge
(`main.py` lines 318-320). -/
def _resource_metadata_url (env : Env) (h : ReqHeaders) (scheme : String) : String :=
  let base := gateway_base env h scheme
  if base = "" then "/.well-known/oauth-protected-resource"
  else base ++ "/.well-known/oauth-protected-resource"

/-- `_challenge_headers` from `main.py` lines 306-326: a single
`WWW-Authenticate` header with the bearer scheme, the metadata URL, and, when
non-empty, the space-joined supported scopes. -/
def _challenge_headers (env : Env) (h : ReqHeaders) (scheme : String) :
    List (String × String) :=
  let scope_str := py_join_space (_supported_scopes env)
  let www_auth :=
    "Bearer resource_metadata=\"" ++ _resource_metadata_url env h scheme ++ "\"" ++
      (if scope_str = "" then "" else ", scope=\"" ++ scope_str ++ "\"")
  [("WWW-Authenticate", www_auth)]

/-- A response body: a JSON document (`JSONResponse`) or a raw event-stream
payload (`Response` with `media_type="text/event-stream"`). -/
inductive BodyRepr where
  | jsonDoc (v : JVal)
  | eventStream (s : String)

structure HttpResponse where
  status : Nat
  media_type : String
  body : BodyRepr
  headers : List (String × String)

/-- The claims the wrapper publishes downstream (`main.py` line 420). -/
structure VClaims where
  sub : Option String
  email : Option String

/-- Outcome of `verify_bearer_token` as observed by `__call__`:
success with claims, `PermissionError`, or any other exception. -/
inductive VerifyOutcome where
  | ok (c : VClaims)
  | permissionError (msg : String)
  | otherError (msg : String)

/-- What `MCPHttpOAuthWrapper.__call__` does with one request. -/
inductive Outcome where
  | passthrough
  | probeResponse (resp : HttpResponse)
  | publicForward
  | forwardWithIdentity (sub email : Option String)
  | unauthorized (resp : HttpResponse)
  | serverError (resp : HttpResponse)

/-- The single SSE error frame of `main.py` line 399. -/
def sseErrorFrame : String :=
  "event: error\ndata: unauthorized\n\n"

/-- Event-stream frames of a payload: `"\n\n"`-separated non-empty chunks.
`acc` holds the current frame reversed. -/
def sse_frames_aux : List Char → List Char → List String
  | [], acc => if acc.isEmpty then [] else [⟨acc.reverse⟩]
  | '\n' :: '\n' :: cs, acc =>
    if acc.isEmpty then sse_frames_aux cs []
    else ⟨acc.reverse⟩ :: sse_frames_aux cs []
  | c :: cs, acc => sse_frames_aux cs (c :: acc)

def sse_frames (s : String) : List String :=
  sse_frames_aux s.data []

/-- The verification phase of `__call__` (`main.py` lines 387-424): success
publishes the claims and forwards; `PermissionError` yields a 401 carrying the
challenge header, whose body is a single SSE error frame on the streaming path
and a JSON document otherwise; any other exception yields a 500. -/
def auth_phase (env : Env) (h : ReqHeaders) (scheme raw_path : String)
    (verify : VerifyOutcome) : Outcome :=
  let path := py_rstrip_slash raw_path
  match verify with
  | .ok c => .forwardWithIdentity c.sub c.email
  | .permissionError msg =>
    let challenge := _challenge_headers env h scheme
    if is_sse_path path then
      .unauthorized ⟨401, "text/event-stream", .eventStream sseErrorFrame, challenge⟩
    else
      .unauthorized ⟨401, "application/json",
        .jsonDoc (.obj [("error", .str "unauthorized"), ("error_description", .str msg)]),
        challenge⟩
  | .otherError msg =>
    .serverError ⟨500, "application/json",
      .jsonDoc (.obj [("error", .str ("OAuth verify error: " ++ msg))]), []⟩

/-- `MCPHttpOAuthWrapper.__call__` (`main.py` lines 328-424) for an HTTP
request: classification, then — when authentication is mandatory — the
verification phase.  The probe response is the `JSONResponse` of line 354. -/
def handle_request (env : Env) (allow_public_discovery : Bool)
    (method scheme raw_path : String) (h : ReqHeaders) (b : Body)
    (verify : VerifyOutcome) : Outcome :=
  match classify allow_public_discovery method raw_path h.authorization b with
  | .passthrough => .passthrough
  | .probeResponse =>
    .probeResponse ⟨200, "application/json",
      .jsonDoc (.obj [("ok", .bool true),
        ("message", .str "MCP endpoint ready. Send JSON-RPC methods via POST.")]), []⟩
  | .publicForward => .publicForward
  | .requireAuth => auth_phase env h scheme raw_path verify

/-! ### Helper lemmas -/

theorem split_dots_length (cs : List Char) :
    (split_dots cs).length = cs.count '.' + 1 := by
  induction cs with
  | nil => rfl
  | cons c cs ih =>
    by_cases h : c = '.'
    · subst h
      simp [split_dots, List.count_cons, ih]
    · simp [split_dots, h, List.count_cons, List.length_tail, ih]

theorem norm_url_append_slash (s : String) : _norm_url (s ++ "/") = _norm_url s := by
  unfold _norm_url py_rstrip_slash rstripChars
  rw [String.data_append]
  rw [show ("/" : String).data = ['/'] from rfl]
  simp [List.dropWhile]

theorem startswith_mcp_of_mcp_path (p : String) (h : is_mcp_path p = true) :
    py_startswith p "/mcp" = true := by
  unfold is_mcp_path at h
  rw [Bool.or_eq_true] at h
  rcases h with h | h
  · have hp : p = "/mcp" := by simpa using h
    subst hp; decide
  · unfold py_startswith at h ⊢
    rw [ List.isPrefixOf_iff_prefix] at h ⊢
    exact List.IsPrefix.trans (by decide) h

theorem no_mcp_prefix_of_sse_path (p : String) (h : is_sse_path p = true) :
    py_startswith p "/mcp" = false := by
  unfold is_sse_path at h
  rw [Bool.or_eq_true] at h
  rcases h with h | h
  · have hp : p = "/sse" := by simpa using h
    subst hp; decide
  · by_contra hm
    rw [Bool.not_eq_false] at hm
    unfold py_startswith at h hm
    rw [ List.isPrefixOf_iff_prefix] at h hm
    rcases List.prefix_or_prefix_of_prefix hm h with hc | hc
    · exact absurd hc (by decide)
    · exact absurd hc (by decide)

theorem list_connections_sorted (st : Store) (u : String) :
    List.Sorted updatedGe (list_connections st u) := by
  unfold list_connections
  exact List.sorted_insertionSort updatedGe _

/-! ### Claim C1 — audience normalization in `verify_bearer_token` -/

/-- Claim C1, counterexample. The claim's normalization — stripping a *single*
trailing path separator — predicts rejection for the audience entry `"x//"`
against expected audience `"x"` (under single-stripping `"x/" ≠ "x"` and the
entry list is exactly `["x//"]`), yet the code's check succeeds, because
`_norm_url` is `rstrip("/")`, which strips *all* trailing separators. -/
theorem aud_check_single_strip_refuted :
    aud_check_ok "x" (some (JVal.str "x//")) = true ∧
    aud_strings (some (JVal.str "x//")) = ["x//"] ∧
    stripOneTrailingSlash "x//" ≠ stripOneTrailingSlash "x" := by
  refine ⟨by decide, by decide, by decide⟩

/-- Claim C1, amended. In `verify_bearer_token`, the audience check compares the
expected audience against the token's `aud` claim (a single string or a list)
by normalizing both sides with `_norm_url` — stripping *all* trailing path
separators `'/'` — and testing exact string equality; the check succeeds iff
some string `aud` entry normalizes to the normalized expected audience, so in
particular a token audience differing from the expected resource only by a
trailing path separator still verifies. -/
theorem aud_check_normalized_all_slashes (expected : String) (token_aud : Option JVal) :
    (aud_check_ok expected token_aud = true ↔
      ∃ s ∈ aud_strings token_aud, _norm_url s = _norm_url expected) ∧
    aud_check_ok expected (some (JVal.str (expected ++ "/"))) = true := by
  constructor
  · simp [aud_check_ok, List.mem_map, eq_comm]
  · simp [aud_check_ok, aud_strings, norm_url_append_slash]

/-- Witness for C1: an audience equal to the expected resource plus one
trailing slash verifies against expected audience `"x"`. -/
theorem aud_check_normalized_all_slashes_witness :
    aud_check_ok "x" (some (JVal.str ("x" ++ "/"))) = true :=
  (aud_check_normalized_all_slashes "x" none).2

/-! ### Claim C5 — structural rejection before any network call -/

/-- Claim C5. For every Authorization header that carries the bearer scheme but
whose extracted token does not consist of exactly three dot-separated
segments, `verify_bearer_token` rejects immediately with the structural
rejection (the `PermissionError` distinguishing opaque from JWE-encrypted
token failure modes, `app/oauth_verify.py` lines 67-73) and never reaches the
signing-key-set fetch (`jwksFetch`, the only outcome performing network
work). -/
theorem structural_token_rejected (default_audience audience : Option String)
    (hdr : String)
    (hexp : opt_str_truthy (py_or_opt audience default_audience) = true)
    (hb : py_startswith (py_lower hdr) "bearer " = true)
    (hseg : (split_dots (py_strip (py_split_space_1_tail hdr)).data).length ≠ 3) :
    verify_bearer_token_pre default_audience audience (some hdr) = .errNotSignedJwt ∧
    ∀ t, verify_bearer_token_pre default_audience audience (some hdr) ≠ .jwksFetch t := by
  have hcount : count_char (py_strip (py_split_space_1_tail hdr)) '.' ≠ 2 := by
    intro hc
    apply hseg
    rw [split_dots_length]
    unfold count_char at hc
    rw [hc]
  have h1 : verify_bearer_token_pre default_audience audience (some hdr) =
      .errNotSignedJwt := by
    simp [verify_bearer_token_pre, hexp, hb, hcount]
  exact ⟨h1, fun t => by rw [h1]; simp⟩

/-- Witness for C5 at the concrete header `"Bearer abc"` (a one-segment,
opaque-looking token) with configured audience `"aud"`. -/
theorem structural_token_rejected_witness :
    opt_str_truthy (py_or_opt none (some "aud")) = true ∧
    py_startswith (py_lower "Bearer abc") "bearer " = true ∧
    (split_dots (py_strip (py_split_space_1_tail "Bearer abc")).data).length ≠ 3 ∧
    verify_bearer_token_pre (some "aud") none (some "Bearer abc") = .errNotSignedJwt :=
  ⟨by decide, by decide, by decide,
    (structural_token_rejected (some "aud") none "Bearer abc"
      (by decide) (by decide) (by decide)).1⟩

/-! ### Claim C2 — public-discovery exemption on the unary path -/

/-- Claim C2, counterexample. A body parsing to one message object that has only an `id` field;
every extracted method name (there are none) is vacuously in the allow-list
and no Authorization header is present, yet the request is *not* forwarded
unauthenticated: `if methods and all(…)` (`main.py` line 365) demands a
non-empty extracted-method list, so the gateway requires bearer
verification. -/
theorem public_forward_vacuous_refuted :
    classify true "POST" "/mcp" none ⟨false, some (JVal.obj [("id", JVal.num 1)])⟩ =
      .requireAuth ∧
    _extract_jsonrpc_methods ⟨false, some (JVal.obj [("id", JVal.num 1)])⟩ = [] ∧
    bearer_header_present none = false := by
  refine ⟨by decide, by decide, by decide⟩

/-- Claim C2, amended. With public discovery enabled (the default), a POST to
the unary tool path is forwarded downstream without authentication iff at
least one method name is extracted from the body, every extracted method name
is in the fixed allow-list or carries the `notifications/` marker prefix, and
no bearer-scheme Authorization header is present — so a body mixing one
allow-listed and one non-allow-listed method requires bearer verification —
and the streaming path never receives this exemption. -/
theorem public_forward_iff (raw_path : String) (auth : Option String) (b : Body) :
    (is_mcp_path (py_rstrip_slash raw_path) = true →
      (classify true "POST" raw_path auth b = .publicForward ↔
        (_extract_jsonrpc_methods b ≠ [] ∧
         (_extract_jsonrpc_methods b).all _is_public_method = true ∧
         bearer_header_present auth = false))) ∧
    (is_sse_path (py_rstrip_slash raw_path) = true →
      ∀ method auth2 b2, classify true method raw_path auth2 b2 ≠ .publicForward) := by
  constructor
  · intro hm
    have hms : mcp_or_sse_path (py_rstrip_slash raw_path) = true := by
      unfold is_mcp_path at hm
      unfold mcp_or_sse_path
      rw [Bool.or_eq_true] at hm
      rcases hm with h | h <;> simp [h]
    have hpre := startswith_mcp_of_mcp_path _ hm
    cases hb : bearer_header_present auth with
    | true => simp [classify, hms, hpre, hb]
    | false =>
      cases hempty : b.isEmpty with
      | true =>
        simp [classify, hms, hpre, hb, hempty, _extract_jsonrpc_methods]
      | false =>
        by_cases hc : (!(_extract_jsonrpc_methods b).isEmpty) &&
            (_extract_jsonrpc_methods b).all _is_public_method = true
        · rw [Bool.and_eq_true] at hc
          have hne : _extract_jsonrpc_methods b ≠ [] := by
            intro hnil
            rw [hnil] at hc
            simp at hc
          simp [classify, hms, hpre, hb, hempty, hc.1, hc.2, hne]
        · rw [Bool.and_eq_true] at hc
          rcases not_and_or.mp hc with h1 | h2
          · have hx : (_extract_jsonrpc_methods b).isEmpty = true := by
              revert h1
              cases (_extract_jsonrpc_methods b).isEmpty <;> simp
            have hnil : _extract_jsonrpc_methods b = [] := by
              cases h : _extract_jsonrpc_methods b with
              | nil => rfl
              | cons x xs => rw [h] at hx; simp [List.isEmpty] at hx
            simp [classify, hms, hpre, hb, hempty, hx, hnil]
          · have hall : (_extract_jsonrpc_methods b).all _is_public_method = false := by
              revert h2
              cases (_extract_jsonrpc_methods b).all _is_public_method <;> simp
            simp [classify, hms, hpre, hb, hempty, hall]
  · intro hs method auth2 b2
    have hms : mcp_or_sse_path (py_rstrip_slash raw_path) = true := by
      unfold is_sse_path at hs
      unfold mcp_or_sse_path
      rw [Bool.or_eq_true] at hs
      rcases hs with h | h <;> simp [h]
    have hnm : py_startswith (py_rstrip_slash raw_path) "/mcp" = false :=
      no_mcp_prefix_of_sse_path _ hs
    simp [classify, hms, hnm]

/-- Witness for C2 at the concrete request POST `/mcp`, no Authorization
header, body `{"method": "initialize"}`: forwarded unauthenticated. -/
theorem public_forward_iff_witness :
    is_mcp_path (py_rstrip_slash "/mcp") = true ∧
    classify true "POST" "/mcp" none
      ⟨false, some (JVal.obj [("method", JVal.str "initialize")])⟩ = .publicForward :=
  ⟨by decide,
    ((public_forward_iff "/mcp" none
      ⟨false, some (JVal.obj [("method", JVal.str "initialize")])⟩).1 (by decide)).mpr
      ⟨by decide, by decide, by decide⟩⟩

/-! ### Claims C3, C4, C6 — `_get_valid_access_token` -/

theorem decrypt_opt_access_error (x : Option String) (e : AppError)
    (h : decrypt_opt_access x = .error e) : e = .configurationMissing "InvalidToken" := by
  cases x with
  | none => simp [decrypt_opt_access] at h
  | some enc =>
    cases hd : decrypt enc with
    | none =>
      rw [show decrypt_opt_access (some enc) = .error (.configurationMissing "InvalidToken")
        from by simp [decrypt_opt_access, hd]] at h
      exact (Except.error.inj h).symm
    | some s => simp [decrypt_opt_access, hd] at h

/-- Claim C3. Whenever the stored credential's access token is absent, or its
expiry is unset, or its expiry lies within 30 seconds of the current time,
`_get_valid_access_token` performs exactly one refresh exchange against the
upstream authorization server, persists via `upsert_connection` — passing the
stored `company_name` back, so it is preserved — the new encrypted access
token together with absolute expiry `now` plus the response's relative
lifetime (default 3600 seconds), retains the previous refresh token in the
persisted record when the response omits a rotated one, and returns the new
access token. -/
theorem refresh_exchange_spec (st : Store) (u r : String) (now : Int)
    (conn : ConnRow) (accOpt : Option String) (rclear : String) (tr : TokenResp)
    (hconn : findConn st u r = some conn)
    (hacc : decrypt_opt_access conn.access_token_enc = .ok accOpt)
    (href : decrypt conn.refresh_token_enc = some rclear)
    (htrigger : accOpt = none ∨ conn.access_token_expires_at = none ∨
      (∃ e, conn.access_token_expires_at = some e ∧ e ≤ now + 30)) :
    _get_valid_access_token st u r now (.ok tr) =
      .ok ⟨tr.access_token,
        upsert_connection st u r conn.company_name
          (some (encrypt tr.access_token))
          (encrypt (tr.refresh_token.getD rclear))
          (some (now + tr.expires_in.getD 3600)) now,
        1⟩ ∧
    (tr.refresh_token = none →
      encrypt (tr.refresh_token.getD rclear) = encrypt rclear) := by
  have hcond : (!(opt_str_truthy accOpt) ||
      expired_or_missing conn.access_token_expires_at now) = true := by
    rcases htrigger with h | h | ⟨e, he, hle⟩
    · subst h; rfl
    · rw [h]; simp [expired_or_missing]
    · rw [he]
      simp [expired_or_missing, hle]
  have hmain : _get_valid_access_token st u r now (.ok tr) =
      .ok ⟨tr.access_token,
        upsert_connection st u r conn.company_name
          (some (encrypt tr.access_token))
          (encrypt (tr.refresh_token.getD rclear))
          (some (now + tr.expires_in.getD 3600)) now,
        1⟩ := by
    simp [_get_valid_access_token, get_connection, hconn, hacc,
      decrypt_or_error, href, hcond]
  exact ⟨hmain, fun hn => by rw [hn]; rfl⟩

/-- Witness for C3: a credential with no access token; refresh response with
lifetime 50 at time 100 persists expiry 150 and returns the new token. -/
theorem refresh_exchange_spec_witness :
    findConn [(⟨"u", "r"⟩, ⟨some "Acme", none, encrypt "R", none, (5 : Int)⟩)] "u" "r" =
      some ⟨some "Acme", none, encrypt "R", none, 5⟩ ∧
    _get_valid_access_token [(⟨"u", "r"⟩, ⟨some "Acme", none, encrypt "R", none, 5⟩)]
        "u" "r" 100 (.ok ⟨"A", none, some 50⟩) =
      .ok ⟨"A",
        upsert_connection [(⟨"u", "r"⟩, ⟨some "Acme", none, encrypt "R", none, 5⟩)]
          "u" "r" (some "Acme") (some (encrypt "A")) (encrypt "R") (some 150) 100,
        1⟩ :=
  ⟨by decide, by
    have h := (refresh_exchange_spec
      [(⟨"u", "r"⟩, ⟨some "Acme", none, encrypt "R", none, (5 : Int)⟩)] "u" "r" 100
      ⟨some "Acme", none, encrypt "R", none, 5⟩ none "R" ⟨"A", none, some 50⟩
      (by decide) (by rfl) (by decide) (Or.inl rfl)).1
    simpa using h⟩

/-- Claim C4, counterexample. A stored credential whose access-token field is
present but decrypts to the empty string, with recorded expiry 1000 — far
more than 30 seconds beyond the current time 0: the claim predicts the cached
token is returned unchanged with no refresh exchange and an unmodified store,
but the code treats the empty decrypted string as falsy (`not access_token`,
`app/service.py` line 47) and refreshes: it returns the upstream token
`"A2"`, performs one exchange, and rewrites the stored record. -/
theorem cached_token_empty_refuted :
    _get_valid_access_token
        [(⟨"u", "r"⟩, ⟨none, some (encrypt ""), encrypt "R", some 1000, 5⟩)]
        "u" "r" 0 (.ok ⟨"A2", none, none⟩) =
      .ok ⟨"A2", [(⟨"u", "r"⟩, ⟨none, some (encrypt "A2"), encrypt "R", some 3600, 0⟩)], 1⟩ ∧
    (1 : Nat) ≠ 0 ∧
    ([(⟨"u", "r"⟩, ⟨none, some (encrypt "A2"), encrypt "R", some 3600, (0 : Int)⟩)] : Store) ≠
      [(⟨"u", "r"⟩, ⟨none, some (encrypt ""), encrypt "R", some 1000, 5⟩)] := by
  refine ⟨by decide, by decide, by decide⟩

/-- Claim C4, amended. Whenever the stored credential has an access token whose
decrypted value is a non-empty string and a recorded expiry more than 30
seconds in the future, `_get_valid_access_token` returns the decrypted cached
access token unchanged, performs no refresh exchange against the upstream
server (the result is the same for every refresh-response oracle and reports
zero refresh calls), and leaves the stored credential record unmodified. -/
theorem cached_token_no_refresh (st : Store) (u r : String) (now : Int)
    (conn : ConnRow) (enc tok rclear : String) (e : Int)
    (hconn : findConn st u r = some conn)
    (henc : conn.access_token_enc = some enc)
    (hdec : decrypt enc = some tok)
    (hne : tok ≠ "")
    (href : decrypt conn.refresh_token_enc = some rclear)
    (hexp : conn.access_token_expires_at = some e)
    (hfut : now + 30 < e) :
    ∀ refresh_resp, _get_valid_access_token st u r now refresh_resp = .ok ⟨tok, st, 0⟩ := by
  intro rr
  have hacc : decrypt_opt_access conn.access_token_enc = .ok (some tok) := by
    rw [henc]
    simp [decrypt_opt_access, hdec]
  have h1 : opt_str_truthy (some tok) = true := by simp [opt_str_truthy, hne]
  have h2 : expired_or_missing conn.access_token_expires_at now = false := by
    rw [hexp]
    simp [expired_or_missing]
    exact hfut
  have hcond : (!(opt_str_truthy (some tok)) ||
      expired_or_missing conn.access_token_expires_at now) = false := by
    rw [h1, h2]; rfl
  simp [_get_valid_access_token, get_connection, hconn, hacc,
    decrypt_or_error, href, hcond]

/-- Witness for C4: a fresh cached token survives even an unreachable
upstream (`refresh_resp = error`), with store and token unchanged. -/
theorem cached_token_no_refresh_witness :
    findConn [(⟨"u", "r"⟩, ⟨none, some (encrypt "T"), encrypt "R", some 1000, (5 : Int)⟩)]
      "u" "r" = some ⟨none, some (encrypt "T"), encrypt "R", some 1000, 5⟩ ∧
    _get_valid_access_token
        [(⟨"u", "r"⟩, ⟨none, some (encrypt "T"), encrypt "R", some 1000, 5⟩)]
        "u" "r" 0 (.error "upstream unreachable") =
      .ok ⟨"T", [(⟨"u", "r"⟩, ⟨none, some (encrypt "T"), encrypt "R", some 1000, 5⟩)], 0⟩ :=
  ⟨by decide,
    cached_token_no_refresh _ "u" "r" 0 ⟨none, some (encrypt "T"), encrypt "R", some 1000, 5⟩
      (encrypt "T") "T" "R" 1000 (by decide) rfl (by decide) (by decide) (by decide) rfl
      (by decide) (.error "upstream unreachable")⟩

/-- Claim C6. A failure to decrypt a stored token at read time in
`_get_valid_access_token` yields the ConfigurationMissing-class error
(modelling the Fernet `InvalidToken` exception), while a missing credential
row yields the NotConnected error (`ValueError("Not connected")`), and the
two error classes are distinct for every pair of messages — never
conflated. -/
theorem decrypt_failure_distinct_error (st : Store) (u r : String) (now : Int)
    (rr : Except String TokenResp) :
    (∀ conn, findConn st u r = some conn →
      (decrypt conn.refresh_token_enc = none ∨
        (∃ enc, conn.access_token_enc = some enc ∧ decrypt enc = none)) →
      _get_valid_access_token st u r now rr =
        .error (.configurationMissing "InvalidToken")) ∧
    (findConn st u r = none →
      _get_valid_access_token st u r now rr = .error (.notConnected "Not connected")) ∧
    (∀ m m2, AppError.configurationMissing m ≠ AppError.notConnected m2) := by
  refine ⟨?_, ?_, ?_⟩
  · intro conn hconn hbad
    rcases hbad with hrefresh | ⟨enc, henc, hdec⟩
    · cases hacc : decrypt_opt_access conn.access_token_enc with
      | error e =>
        rw [decrypt_opt_access_error _ _ hacc] at hacc
        simp [_get_valid_access_token, get_connection, hconn, hacc]
      | ok accOpt =>
        simp [_get_valid_access_token, get_connection, hconn, hacc,
          decrypt_or_error, hrefresh]
    · have hacc : decrypt_opt_access conn.access_token_enc =
          .error (.configurationMissing "InvalidToken") := by
        rw [henc]
        simp [decrypt_opt_access, hdec]
      simp [_get_valid_access_token, get_connection, hconn, hacc]
  · intro h
    simp [_get_valid_access_token, get_connection, h]
  · intro m m2 h
    exact AppError.noConfusion h

/-- Witness for C6: a stored record whose refresh-token ciphertext is not a
well-formed Fernet token. -/
theorem decrypt_failure_distinct_error_witness :
    findConn [(⟨"u", "r"⟩, ⟨none, none, "xyz", none, (5 : Int)⟩)] "u" "r" =
      some ⟨none, none, "xyz", none, 5⟩ ∧
    decrypt "xyz" = none ∧
    _get_valid_access_token [(⟨"u", "r"⟩, ⟨none, none, "xyz", none, 5⟩)] "u" "r" 0
      (.ok ⟨"A", none, none⟩) = .error (.configurationMissing "InvalidToken") :=
  ⟨by decide, by decide,
    (decrypt_failure_distinct_error [(⟨"u", "r"⟩, ⟨none, none, "xyz", none, (5 : Int)⟩)]
      "u" "r" 0 (.ok ⟨"A", none, none⟩)).1 ⟨none, none, "xyz", none, 5⟩
      (by decide) (Or.inl (by decide))⟩

/-! ### Claim C7 — `upsert` then `get` round-trip -/

theorem find?_map_keyPreserving (u r : String)
    (f : ConnKey × ConnRow → ConnKey × ConnRow)
    (hf : ∀ kr, (f kr).1 = kr.1) :
    ∀ (st : Store) (entry : ConnKey × ConnRow),
      st.find? (connKeyPred u r) = some entry →
      (st.map f).find? (connKeyPred u r) = some (f entry) := by
  intro st
  induction st with
  | nil => intro entry h; simp at h
  | cons kr st ih =>
    intro entry h
    by_cases hk : connKeyPred u r kr = true
    · rw [List.find?_cons_of_pos _ hk] at h
      have hk2 : connKeyPred u r (f kr) = true := by
        unfold connKeyPred at hk ⊢
        rw [hf kr]
        exact hk
      rw [List.map_cons, List.find?_cons_of_pos _ hk2, Option.some.inj h]
    · have hkf : ¬(connKeyPred u r (f kr) = true) := by
        unfold connKeyPred at hk ⊢
        rw [hf kr]
        exact hk
      rw [List.find?_cons_of_neg _ hk] at h
      rw [List.map_cons, List.find?_cons_of_neg _ hkf]
      exact ih entry h

theorem upsertRow_key (u r : String) (name acc : Option String) (refr : String)
    (exp : Option Int) (now : Int) (kr : ConnKey × ConnRow) :
    (upsertRow u r name acc refr exp now kr).1 = kr.1 := by
  unfold upsertRow
  by_cases hk : connKeyPred u r kr = true <;> simp [hk]

theorem findConn_upsert (st : Store) (u r : String) (name acc : Option String)
    (refr : String) (exp : Option Int) (now : Int) :
    findConn (upsert_connection st u r name acc refr exp now) u r =
      some ⟨(match findConn st u r with
             | none => name
             | some prev => if opt_str_truthy name then name else prev.company_name),
            acc, refr, exp, now⟩ := by
  cases h : findConn st u r with
  | none =>
    have h0 : st.find? (connKeyPred u r) = none := by
      unfold findConn at h
      cases hf : st.find? (connKeyPred u r) with
      | none => rfl
      | some x => rw [hf] at h; simp at h
    unfold upsert_connection
    rw [h]
    unfold findConn
    rw [List.find?_append, h0]
    simp [List.find?, connKeyPred]
  | some prev =>
    have hfind : ∃ entry, st.find? (connKeyPred u r) = some entry ∧ entry.2 = prev := by
      unfold findConn at h
      cases hf : st.find? (connKeyPred u r) with
      | none => rw [hf] at h; simp at h
      | some entry =>
        rw [hf] at h
        refine ⟨entry, rfl, ?_⟩
        simpa using h
    rcases hfind with ⟨entry, hfind, hrow⟩
    have hkey : connKeyPred u r entry = true := List.find?_some hfind
    unfold upsert_connection
    rw [h]
    unfold findConn
    rw [find?_map_keyPreserving u r _ (upsertRow_key u r name acc refr exp now) st entry hfind]
    simp [upsertRow, hkey, hrow]

/-- Claim C7, counterexample. `upsert` does not round-trip `company_name` when
the supplied value is empty/absent and a row already exists: upserting with
`company_name = None` over a row named `"Acme"` yields a record whose `get`
still returns `"Acme"`, not the `None` that was written. -/
theorem upsert_get_company_refuted :
    get_connection
      (upsert_connection [(⟨"u", "r"⟩, ⟨some "Acme", none, encrypt "R", none, 5⟩)]
        "u" "r" none (some (encrypt "a")) (encrypt "b") (some 7) 9) "u" "r" =
      .ok ⟨some "Acme", some (encrypt "a"), encrypt "b", some 7, 9⟩ ∧
    (some "Acme" : Option String) ≠ none := by
  refine ⟨by decide, by decide⟩

/-- Claim C7, amended. For every (user, tenant) key, performing `upsert` with
encrypted token values and then `get` round-trips the access/refresh token
fields and the expiry exactly, and round-trips `company_name` whenever a
non-empty name is supplied or no prior row existed (an empty/absent name over
an existing row preserves the prior name instead); the clear token strings
are recoverable only after an explicit `decrypt` (with
`decrypt (encrypt s) = s` for every string `s`), and the Store's `get` itself
never returns tokens in clear form — the token fields it returns are the
ciphertexts, which always differ from the clear strings. -/
theorem upsert_get_roundtrip (st : Store) (u r : String) (name : Option String)
    (a_clear r_clear : String) (e now : Int) :
    ∃ row, get_connection
        (upsert_connection st u r name (some (encrypt a_clear)) (encrypt r_clear)
          (some e) now) u r = .ok row ∧
      row.access_token_enc = some (encrypt a_clear) ∧
      row.refresh_token_enc = encrypt r_clear ∧
      row.access_token_expires_at = some e ∧
      decrypt (encrypt a_clear) = some a_clear ∧
      decrypt (encrypt r_clear) = some r_clear ∧
      encrypt a_clear ≠ a_clear ∧
      encrypt r_clear ≠ r_clear ∧
      (opt_str_truthy name = true → row.company_name = name) ∧
      (findConn st u r = none → row.company_name = name) ∧
      (∀ prev, findConn st u r = some prev → opt_str_truthy name = false →
        row.company_name = prev.company_name) := by
  have hfind := findConn_upsert st u r name (some (encrypt a_clear)) (encrypt r_clear)
    (some e) now
  refine ⟨_, by rw [get_connection, hfind], rfl, rfl, rfl, ?_, ?_, ?_, ?_, ?_, ?_, ?_⟩
  · cases a_clear; rfl
  · cases r_clear; rfl
  · cases a_clear with
    | mk data =>
      intro hx
      have : ('g' :: data).length = data.length := congrArg (·.data.length) hx
      simp at this
  · cases r_clear with
    | mk data =>
      intro hx
      have : ('g' :: data).length = data.length := congrArg (·.data.length) hx
      simp at this
  · intro ht
    cases hprev : findConn st u r <;> simp [hprev, ht]
  · intro hnone
    simp [hnone]
  · intro prev hprev ht
    simp [hprev, ht]

/-- Witness for C7: a concrete round-trip over an empty store. -/
theorem upsert_get_roundtrip_witness :
    ∃ row, get_connection
        (upsert_connection [] "u" "r" (some "Acme") (some (encrypt "a")) (encrypt "b")
          (some 7) 9) "u" "r" = .ok row ∧
      row.access_token_enc = some (encrypt "a") ∧
      row.refresh_token_enc = encrypt "b" ∧
      row.access_token_expires_at = some 7 ∧
      decrypt (encrypt "a") = some "a" ∧
      decrypt (encrypt "b") = some "b" ∧
      encrypt "a" ≠ "a" ∧
      encrypt "b" ≠ "b" ∧
      row.company_name = some "Acme" := by
  obtain ⟨row, h1, h2, h3, h4, h5, h6, h7, h8, h9, -, -⟩ :=
    upsert_get_roundtrip [] "u" "r" (some "Acme") "a" "b" 7 9
  exact ⟨row, h1, h2, h3, h4, h5, h6, h7, h8, h9 (by decide)⟩

/-! ### Claim C9 — total `delete` -/

/-- Claim C9. `delete_connection` returns whether a row existed and never raises
on a no-op (it is a total function with no error path): for every
(user, tenant) pair with no stored credential row it returns `false` and
leaves the store unchanged, while deleting an existing row returns `true`. -/
theorem delete_connection_total (st : Store) (u r : String) :
    (findConn st u r = none → delete_connection st u r = (false, st)) ∧
    (∀ row, findConn st u r = some row → (delete_connection st u r).1 = true) := by
  constructor
  · intro h
    simp [delete_connection, h]
  · intro row h
    simp [delete_connection, h]

/-- Witness for C9: deleting from an empty store reports "did not exist". -/
theorem delete_connection_total_witness :
    findConn [] "u" "r" = none ∧ delete_connection [] "u" "r" = (false, []) :=
  ⟨by decide, (delete_connection_total [] "u" "r").1 (by decide)⟩

/-! ### Claim C10 — default tenant resolution -/

/-- Claim C10. For every entity operation invoked without an explicit tenant id,
the tenant resolves to the user's most-recently-updated stored credential —
the first entry of the `list_connections` order by `updated_at` descending,
which dominates the `updated_at` of every listed entry — and when the user
has no stored credentials a user-actionable not-connected error is raised
instead of calling the external API: the operation returns that error
identically for every API oracle, so the API is never consulted. -/
theorem resolve_default_realm (st : Store) (u : String) :
    (list_connections st u = [] →
      _resolve_realm_id st u none = .error (.notConnected noCompaniesMsg) ∧
      ∀ now rr api, entity_operation st u none now rr api =
        .error (.notConnected noCompaniesMsg)) ∧
    (∀ c cs, list_connections st u = c :: cs →
      _resolve_realm_id st u none = .ok c.realm_id ∧
      ∀ d ∈ list_connections st u, d.updated_at ≤ c.updated_at) := by
  constructor
  · intro h
    have h1 : _resolve_realm_id st u none = .error (.notConnected noCompaniesMsg) := by
      simp [_resolve_realm_id, opt_str_truthy, h]
    refine ⟨h1, fun now rr api => ?_⟩
    simp [entity_operation, h1]
  · intro c cs h
    refine ⟨by simp [_resolve_realm_id, opt_str_truthy, h], ?_⟩
    intro d hd
    rw [h] at hd
    rcases List.mem_cons.mp hd with rfl | hd2
    · exact le_refl _
    · have hs := list_connections_sorted st u
      rw [h] at hs
      exact List.rel_of_sorted_cons hs d hd2

/-- Witness for C10: with two connections updated at times 5 and 9, the
implicit tenant resolves to the one updated at 9. -/
theorem resolve_default_realm_witness :
    list_connections
        [(⟨"u", "r1"⟩, ⟨none, none, encrypt "R", none, (5 : Int)⟩),
         (⟨"u", "r2"⟩, ⟨none, none, encrypt "R", none, 9⟩)] "u" =
      [⟨"r2", none, 9⟩, ⟨"r1", none, 5⟩] ∧
    _resolve_realm_id
        [(⟨"u", "r1"⟩, ⟨none, none, encrypt "R", none, 5⟩),
         (⟨"u", "r2"⟩, ⟨none, none, encrypt "R", none, 9⟩)] "u" none = .ok "r2" :=
  ⟨by decide,
    ((resolve_default_realm
      [(⟨"u", "r1"⟩, ⟨none, none, encrypt "R", none, 5⟩),
       (⟨"u", "r2"⟩, ⟨none, none, encrypt "R", none, 9⟩)] "u").2 ⟨"r2", none, 9⟩
      [⟨"r1", none, 5⟩] (by decide)).1⟩

/-! ### Claim C8 — 401 challenge and SSE error framing -/

/-- Claim C8. Whenever bearer verification fails on a protected tool path (the
request was classified as requiring authentication and the verifier raised
`PermissionError`), the response has status 401 with a `WWW-Authenticate`
challenge using the bearer scheme that names the protected-resource metadata
URL and the space-joined supported scopes; and when the failing path is the
streaming transport the body is a single error frame in the event-stream
framing rather than a JSON document (on any other protected path it is a JSON
document). -/
theorem quote_scope_append (x : String) :
    "\"" ++ (", scope=\"" ++ x) = "\", scope=\"" ++ x := by
  rw [← String.append_assoc]
  rw [show ("\"" ++ ", scope=\"" : String) = "\", scope=\"" from by decide]

theorem unauthorized_challenge_spec (env : Env) (ap : Bool)
    (method scheme raw_path msg : String) (h : ReqHeaders) (b : Body)
    (hcls : classify ap method raw_path h.authorization b = .requireAuth)
    (hscopes : py_join_space (_supported_scopes env) ≠ "") :
    ∃ resp, handle_request env ap method scheme raw_path h b (.permissionError msg) =
        .unauthorized resp ∧
      resp.status = 401 ∧
      resp.headers = [("WWW-Authenticate",
        "Bearer resource_metadata=\"" ++ _resource_metadata_url env h scheme ++ "\"" ++
          ", scope=\"" ++ py_join_space (_supported_scopes env) ++ "\"")] ∧
      (is_sse_path (py_rstrip_slash raw_path) = true →
        resp.media_type = "text/event-stream" ∧
        resp.body = .eventStream sseErrorFrame ∧
        sse_frames sseErrorFrame = ["event: error\ndata: unauthorized"]) ∧
      (is_sse_path (py_rstrip_slash raw_path) = false →
        resp.media_type = "application/json" ∧
        ∃ v, resp.body = .jsonDoc v) := by
  have hchal : _challenge_headers env h scheme =
      [("WWW-Authenticate",
        "Bearer resource_metadata=\"" ++ _resource_metadata_url env h scheme ++ "\"" ++
          ", scope=\"" ++ py_join_space (_supported_scopes env) ++ "\"")] := by
    simp only [_challenge_headers]
    rw [if_neg hscopes]
    simp [String.append_assoc, quote_scope_append]
  cases hsse : is_sse_path (py_rstrip_slash raw_path) with
  | true =>
    refine ⟨⟨401, "text/event-stream", .eventStream sseErrorFrame,
      _challenge_headers env h scheme⟩, ?_, rfl, by rw [hchal], ?_, ?_⟩
    · simp [handle_request, hcls, auth_phase, hsse]
    · intro hx
      exact ⟨rfl, rfl, by decide⟩
    · intro hx
      exact Bool.noConfusion hx
  | false =>
    refine ⟨⟨401, "application/json",
      .jsonDoc (.obj [("error", .str "unauthorized"), ("error_description", .str msg)]),
      _challenge_headers env h scheme⟩, ?_, rfl, by rw [hchal], ?_, ?_⟩
    · simp [handle_request, hcls, auth_phase, hsse]
    · intro hx
      exact Bool.noConfusion hx
    · intro hx
      exact ⟨rfl, _, rfl⟩

/-- Witness for C8: a failing GET on `/sse` with a bearer header present. -/
theorem unauthorized_challenge_spec_witness :
    ∃ resp, handle_request ⟨some "https://h", none, none, none⟩ true "GET" "https" "/sse"
        ⟨some "Bearer bad", none, none, none⟩ ⟨true, none⟩ (.permissionError "bad aud") =
        .unauthorized resp ∧
      resp.status = 401 ∧
      resp.headers = [("WWW-Authenticate",
        "Bearer resource_metadata=\"" ++
          _resource_metadata_url ⟨some "https://h", none, none, none⟩
            ⟨some "Bearer bad", none, none, none⟩ "https" ++ "\"" ++
          ", scope=\"" ++
          py_join_space (_supported_scopes ⟨some "https://h", none, none, none⟩) ++ "\"")] ∧
      (is_sse_path (py_rstrip_slash "/sse") = true →
        resp.media_type = "text/event-stream" ∧
        resp.body = .eventStream sseErrorFrame ∧
        sse_frames sseErrorFrame = ["event: error\ndata: unauthorized"]) ∧
      (is_sse_path (py_rstrip_slash "/sse") = false →
        resp.media_type = "application/json" ∧
        ∃ v, resp.body = .jsonDoc v) :=
  unauthorized_challenge_spec ⟨some "https://h", none, none, none⟩ true "GET" "https"
    "/sse" "bad aud" ⟨some "Bearer bad", none, none, none⟩ ⟨true, none⟩
    (by decide) (by decide)

end QBO

